import Mathlib

/-!
Shallow embedding of `src/main.py` (Billing PDF → Merged Schema Extractor).

The program is a single FastAPI endpoint `/extract` that
  1. validates the uploaded filename ends in `.pdf` (case-insensitive),
  2. extracts per-page text via pdfplumber (modelled as an oracle input),
  3. normalizes lines (collapse whitespace runs, trim, drop empty),
  4. filters lines by a lexical heuristic with stop markers and a
     fallback-to-everything rule,
  5. builds a fixed prompt pair, calls an LLM (modelled as an oracle input),
  6. parses the model JSON and normalizes rows into a nine-field schema.

Python strings are modelled as Lean `String`, processed over `String.data`
(`List Char`) so every function is structurally recursive and kernel-evaluable.
`Char.toUpper`/`Char.toLower` model Python `str.upper()`/`str.lower()` on the
ASCII range, which covers every keyword the program matches against.
-/

/-- ASCII whitespace as matched by Python `\s` / `str.strip()` (space, tab,
newline, carriage return, vertical tab, form feed). -/
def isPySpace (c : Char) : Bool :=
  c = ' ' || c = '\t' || c = '\n' || c = '\x0d' || c = '\x0b' || c = '\x0c'

/-- A single-quote character, used inside the program's literal strings. -/
def apos : String := String.mk [Char.ofNat 39]

/-- Substring test on character lists: does `pat` occur inside `hay`?
Models Python `pat in hay`. -/
def containsList (pat : List Char) : List Char → Bool
  | [] => pat.isEmpty
  | c :: rest => pat.isPrefixOf (c :: rest) || containsList pat rest

/-- Models Python `pat in s` (substring containment). -/
def containsStr (s pat : String) : Bool :=
  containsList pat.data s.data

/-- Models Python `s.upper()` (ASCII range). -/
def upperStr (s : String) : String :=
  String.mk (s.data.map Char.toUpper)

/-- Models Python `s.lower()` (ASCII range). -/
def lowerStr (s : String) : String :=
  String.mk (s.data.map Char.toLower)

/-- Models Python `s.startswith(pat)`. -/
def startsWithStr (s pat : String) : Bool :=
  pat.data.isPrefixOf s.data

/-- Models Python `s.endswith(pat)`. -/
def endsWithStr (s pat : String) : Bool :=
  pat.data.isSuffixOf s.data

/-- `re.sub(r"\s+", " ", ·)` on a character list: every maximal run of
whitespace becomes a single space. -/
def collapseWs : List Char → List Char
  | [] => []
  | [c] => if isPySpace c then [' '] else [c]
  | c :: c' :: rest =>
    if isPySpace c && isPySpace c' then collapseWs (c' :: rest)
    else (if isPySpace c then ' ' else c) :: collapseWs (c' :: rest)

/-- Models Python `s.strip()` on a character list. -/
def trimWs (l : List Char) : List Char :=
  ((l.dropWhile isPySpace).reverse.dropWhile isPySpace).reverse

/-- Split a character list at every newline, Python `t.split("\n")`. -/
def splitNl : List Char → List (List Char)
  | [] => [[]]
  | c :: rest =>
    if c = '\n' then [] :: splitNl rest
    else
      match splitNl rest with
      | [] => [[c]]
      | l :: ls => (c :: l) :: ls

/-- Line normalization for one page text `t` (`main.py` lines 56-63):
skipped when `t` is empty (`if t:`); otherwise split on newlines, keep lines
that are non-empty after stripping, and collapse/trim whitespace in each. -/
def pageLines (t : String) : List String :=
  if t.data.isEmpty then []
  else
    ((splitNl t.data).filter (fun ln => ln.any (fun c => !isPySpace c))).map
      (fun ln => String.mk (trimWs (collapseWs ln)))

/-- `all_text_lines`: concatenation of the normalized lines of every page that
yielded text (`page.extract_text()` returning `None` contributes nothing). -/
def normalizeLines (texts : List (Option String)) : List String :=
  texts.flatMap fun o =>
    match o with
    | none => []
    | some t => pageLines t

/-- The `stop_markers` tuple (`main.py` lines 72-80). -/
def stop_markers : List String :=
  ["AP" ++ apos ++ "S OVERDUE", "AP" ++ apos ++ "S DUE", "OVERDUE AP",
   "DUE CM", "SEPTEMBER", "ALL INTAKE", "NEEDS H0044"]

/-- `any(m in ln.upper() for m in stop_markers)` — the loop's break condition. -/
def isStopLine (ln : String) : Bool :=
  stop_markers.any fun m => containsStr (upperStr ln) m

/-- The header-retention test (`main.py` line 84):
`("NAME" in ln.upper()) and (("MRN" in ln.upper()) or ("MBR" in ln.upper()))`. -/
def headerKeep (ln : String) : Bool :=
  containsStr (upperStr ln) "NAME" &&
    (containsStr (upperStr ln) "MRN" || containsStr (upperStr ln) "MBR")

/-- After at least one leading digit: `\d+\s` matches iff the first non-digit
character that follows is whitespace. -/
def afterDigits : List Char → Bool
  | [] => false
  | c :: rest => if c.isDigit then afterDigits rest else isPySpace c

/-- `re.match(r"^\d+\s", ln)`: one or more digits at the start of the line,
followed by a whitespace character. -/
def startsDigitsWs (ln : String) : Bool :=
  match ln.data with
  | [] => false
  | c :: rest => c.isDigit && afterDigits rest

/-- The data-row test (`main.py` lines 87-89):
`re.match(r"^\d+\s", ln) or ("," in ln and not ln.upper().startswith("AUGUST"))`. -/
def dataKeep (ln : String) : Bool :=
  startsDigitsWs ln ||
    (containsStr ln "," && !(startsWithStr (upperStr ln) "AUGUST"))

/-- The filtering loop (`main.py` lines 81-90) without the fallback: break on a
stop marker, keep header lines (with `continue`), keep data-heuristic lines,
drop the rest. -/
def filterLines : List String → List String
  | [] => []
  | ln :: rest =>
    if isStopLine ln then []
    else if headerKeep ln then ln :: filterLines rest
    else if dataKeep ln then ln :: filterLines rest
    else filterLines rest

/-- `filtered_lines` including the fallback (`main.py` lines 92-93): if the
kept set is empty the full input sequence is used instead. -/
def rowFilter (lines : List String) : List String :=
  let kept := filterLines lines
  if kept.isEmpty then lines else kept

example : filterLines ["NAME MRN#", "1 Jane, 999", "SEPTEMBER DIGEST", "2 Bob, 111"]
    = ["NAME MRN#", "1 Jane, 999"] := by decide

example : rowFilter ["hello world"] = ["hello world"] := by decide

example : isStopLine "overdue ap summary" = true := by decide

/-! ### Prompt builder (`main.py` lines 96-125) -/

/-- One hexadecimal digit character (lowercase), for `\uXXXX` escapes. -/
def hexChar (d : Nat) : Char :=
  if d < 10 then Char.ofNat (48 + d) else Char.ofNat (87 + d)

/-- `json.dumps` escaping of a single character (`ensure_ascii=False`, so
non-ASCII characters pass through unescaped). -/
def jsonEscapeChar (c : Char) : List Char :=
  if c = '"' then ['\\', '"']
  else if c = '\\' then ['\\', '\\']
  else if c = '\n' then ['\\', 'n']
  else if c = '\t' then ['\\', 't']
  else if c = '\x0d' then ['\\', 'r']
  else if c = '\x08' then ['\\', 'b']
  else if c = '\x0c' then ['\\', 'f']
  else if c.toNat < 32 then
    ['\\', 'u', '0', '0', hexChar (c.toNat / 16), hexChar (c.toNat % 16)]
  else [c]

/-- `json.dumps` of one string. -/
def dumpsStr (s : String) : String :=
  "\"" ++ String.mk (s.data.flatMap jsonEscapeChar) ++ "\""

/-- `json.dumps(filtered_lines, ensure_ascii=False)`: a JSON array of strings
with the default `", "` separator. -/
def dumpsStrList (l : List String) : String :=
  "[" ++ String.intercalate ", " (l.map dumpsStr) ++ "]"

/-- The fixed `system_prompt` (`main.py` lines 96-100). -/
def system_prompt : String :=
  "You are a precise information extraction engine for billing tables. " ++
  "You will receive text lines from a PDF (header + rows). " ++
  "Return ONLY valid JSON of the form: \x7b\"rows\": [ ... ]\x7d with NO extra commentary."

/-- The `user_instructions` f-string (`main.py` lines 102-125) as a function of
`filtered_lines`. -/
def user_instructions (filtered_lines : List String) : String :=
  "\nWe have billing tables from different insurers with slightly different headers.\n" ++
  "Unify each row into this MERGED SCHEMA (use strings; use null if missing):\n\n" ++
  "- Name\n" ++
  "- MemberID                (from MRN#, MRN, or MBR ID #)\n" ++
  "- T1023AuthId             (from " ++ apos ++ "T1023 AUTH DATE(S)" ++ apos ++
    " column; values can be alphanumeric IDs)\n" ++
  "- T1023Range              (from " ++ apos ++ "DATE RANGE" ++ apos ++ " or " ++
    apos ++ "B/D RANGE" ++ apos ++ " that corresponds to T1023)\n" ++
  "- T1023BillDate           (from " ++ apos ++ "BILLED" ++ apos ++ " or " ++
    apos ++ "BILL DATE" ++ apos ++ " corresponding to T1023)\n" ++
  "- H0044AuthId             (from " ++ apos ++ "H0044 AUTH DATE(S)" ++ apos ++ ")\n" ++
  "- H0044Range              (from " ++ apos ++ "DATE RANGE" ++ apos ++ " or " ++
    apos ++ "B/D RANGE" ++ apos ++ " corresponding to H0044)\n" ++
  "- H0044BillDate           (from " ++ apos ++ "BILLED" ++ apos ++ " or " ++
    apos ++ "BILL DATE" ++ apos ++ " corresponding to H0044)\n" ++
  "- Paid\n\n" ++
  "IMPORTANT RULES:\n" ++
  "1) Pair RANGE/BILL columns correctly (T1023 vs H0044).\n" ++
  "2) " ++ apos ++ "MemberID" ++ apos ++ " comes from MRN#/MBR ID #.\n" ++
  "3) Do not invent data. If a cell is blank, use null.\n" ++
  "4) Keep date/range formats as found (e.g., " ++ apos ++ "04/01-07/01" ++ apos ++ ").\n" ++
  "5) Output strictly: \x7b\"rows\": [ UnifiedRow, ... ]\x7d.\n\n" ++
  "LINES:\n" ++
  dumpsStrList filtered_lines ++ "\n"

/-- The deterministic pre-model pipeline (`main.py` lines 53-125): from the
page texts to the normalized lines, the filtered lines, and both prompt
strings. -/
def prePipeline (texts : List (Option String)) :
    List String × List String × String × String :=
  let all_text_lines := normalizeLines texts
  let filtered_lines := rowFilter all_text_lines
  (all_text_lines, filtered_lines, system_prompt, user_instructions filtered_lines)

/-! ### JSON values and the schema normalizer (`main.py` lines 24-33, 137-145) -/

/-- Shallow model of a parsed Python JSON value (`json.loads` result). -/
inductive JVal where
  | null
  | bool (b : Bool)
  | num (n : Int)
  | str (s : String)
  | arr (elems : List JVal)
  | obj (fields : List (String × JVal))

/-- The `UnifiedRow` pydantic model: nine optional string fields. -/
structure UnifiedRow where
  Name : Option String := none
  MemberID : Option String := none
  T1023AuthId : Option String := none
  T1023Range : Option String := none
  T1023BillDate : Option String := none
  H0044AuthId : Option String := none
  H0044Range : Option String := none
  H0044BillDate : Option String := none
  Paid : Option String := none
deriving DecidableEq, Repr

/-- The nine schema field names, in declaration order. -/
def unifiedFieldNames : List String :=
  ["Name", "MemberID", "T1023AuthId", "T1023Range", "T1023BillDate",
   "H0044AuthId", "H0044Range", "H0044BillDate", "Paid"]

/-- Pydantic validation of one field of `UnifiedRow(**r)`: absent or JSON
`null` or a JSON string is accepted; any other JSON type fails validation. -/
def fieldOk (fs : List (String × JVal)) (name : String) : Bool :=
  match fs.lookup name with
  | none => true
  | some JVal.null => true
  | some (JVal.str _) => true
  | some _ => false

/-- The value stored for one field of `UnifiedRow(**r)`: the record's string if
present, `none` when the field is absent or JSON `null`. -/
def fieldVal (fs : List (String × JVal)) (name : String) : Option String :=
  match fs.lookup name with
  | some (JVal.str s) => some s
  | _ => none

/-- `UnifiedRow(**r)` for one element `r` of `rows`: a non-mapping element is a
`TypeError`; a mapping validates each of the nine known fields (unknown fields
are ignored, pydantic's default) and fails on a non-string, non-null value. -/
def rowOfJVal : JVal → Except String UnifiedRow
  | JVal.obj fs =>
    if unifiedFieldNames.all (fieldOk fs) then
      Except.ok
        { Name := fieldVal fs "Name"
          MemberID := fieldVal fs "MemberID"
          T1023AuthId := fieldVal fs "T1023AuthId"
          T1023Range := fieldVal fs "T1023Range"
          T1023BillDate := fieldVal fs "T1023BillDate"
          H0044AuthId := fieldVal fs "H0044AuthId"
          H0044Range := fieldVal fs "H0044Range"
          H0044BillDate := fieldVal fs "H0044BillDate"
          Paid := fieldVal fs "Paid" }
    else Except.error "ValidationError"
  | _ => Except.error "TypeError"

/-- The comprehension `[UnifiedRow(**r) for r in rows]` over an already
materialized element list; the first failure propagates. -/
def rowsOfJVals : List JVal → Except String (List UnifiedRow)
  | [] => Except.ok []
  | v :: rest =>
    match rowOfJVal v with
    | Except.error e => Except.error e
    | Except.ok u =>
      match rowsOfJVals rest with
      | Except.error e => Except.error e
      | Except.ok us => Except.ok (u :: us)

/-- Python iteration over the `rows` value: lists yield their elements, strings
their characters, dicts their keys; `None`, numbers and booleans are not
iterable (`TypeError`). -/
def pyIter : JVal → Option (List JVal)
  | JVal.arr l => some l
  | JVal.str s => some (s.data.map fun c => JVal.str (String.mk [c]))
  | JVal.obj fs => some (fs.map fun p => JVal.str p.1)
  | JVal.null => none
  | JVal.bool _ => none
  | JVal.num _ => none

/-- `data.get("rows", [])` (`main.py` line 139): only a dict has `.get`; any
other value raises an `AttributeError` (caught by the surrounding `try`).
The exception detail text is abstracted. -/
def pyGetRows : JVal → Except String JVal
  | JVal.obj fs => Except.ok ((fs.lookup "rows").getD (JVal.arr []))
  | _ => Except.error "AttributeError: object has no attribute get"

/-- `row.dict()`: the emitted response object for one row, as an ordered list
of field-name/value pairs. -/
def dictOf (u : UnifiedRow) : List (String × Option String) :=
  [("Name", u.Name), ("MemberID", u.MemberID), ("T1023AuthId", u.T1023AuthId),
   ("T1023Range", u.T1023Range), ("T1023BillDate", u.T1023BillDate),
   ("H0044AuthId", u.H0044AuthId), ("H0044Range", u.H0044Range),
   ("H0044BillDate", u.H0044BillDate), ("Paid", u.Paid)]

/-! ### The `/extract` endpoint (`main.py` lines 41-145) -/

/-- Result of the pdfplumber extraction step (an external collaborator):
either the `try` block raises (`PDF read error`), or each page's
`extract_text()` yields `None` or a text block. -/
inductive ExtractResult where
  | readError (detail : String)
  | pages (texts : List (Option String))

/-- What `json.loads(content)` does with the model's returned text: raise
(with some detail) or produce a value. -/
inductive JContent where
  | invalid (detail : String)
  | valid (v : JVal)

/-- Result of the OpenAI chat-completion call (an external collaborator):
the call raises, or returns content that `json.loads` is applied to. -/
inductive ModelOutcome where
  | failure (detail : String)
  | returns (content : JContent)

/-- The JSON response body: `status`, `data` (a list of nine-field row
objects), and an optional `error` string (`none` = key absent). -/
structure Response where
  status : Bool
  data : List (List (String × Option String))
  error : Option String
deriving DecidableEq, Repr

/-- Outcome of one request: either a returned response body, or an exception
escaping the handler (no `except` covers it, so FastAPI yields HTTP 500). -/
inductive HandlerOutcome where
  | response (r : Response)
  | unhandled (detail : String)
deriving DecidableEq, Repr

/-- `main.py` lines 127-145: the model call, JSON parsing and `rows` lookup
inside `try`/`except`, then — outside the `try` — the `UnifiedRow(**r)`
comprehension and the success response. The prompt strings are passed to the
external model but do not influence its modelled outcome. -/
def modelStage (_sys _user : String) (mo : ModelOutcome) : HandlerOutcome :=
  match mo with
  | ModelOutcome.failure d =>
    HandlerOutcome.response ⟨false, [], some ("AI extraction failed: " ++ d)⟩
  | ModelOutcome.returns (JContent.invalid d) =>
    HandlerOutcome.response ⟨false, [], some ("AI extraction failed: " ++ d)⟩
  | ModelOutcome.returns (JContent.valid v) =>
    match pyGetRows v with
    | Except.error d =>
      HandlerOutcome.response ⟨false, [], some ("AI extraction failed: " ++ d)⟩
    | Except.ok rows =>
      match pyIter rows with
      | none => HandlerOutcome.unhandled "TypeError"
      | some elems =>
        match rowsOfJVals elems with
        | Except.error e => HandlerOutcome.unhandled e
        | Except.ok urows =>
          HandlerOutcome.response ⟨true, urows.map dictOf, none⟩

/-- The `/extract` handler `extract_merged`, with the two external
collaborators (pdfplumber and the model call) supplied as oracle inputs. -/
def extract_merged (filename : String) (xr : ExtractResult)
    (mo : ModelOutcome) : HandlerOutcome :=
  if !(endsWithStr (lowerStr filename) ".pdf") then
    HandlerOutcome.response ⟨false, [], some "Please upload a PDF"⟩
  else
    match xr with
    | ExtractResult.readError d =>
      HandlerOutcome.response ⟨false, [], some ("PDF read error: " ++ d)⟩
    | ExtractResult.pages texts =>
      let all_text_lines := normalizeLines texts
      if all_text_lines.isEmpty then
        HandlerOutcome.response ⟨false, [], none⟩
      else
        let filtered_lines := rowFilter all_text_lines
        modelStage system_prompt (user_instructions filtered_lines) mo

example :
    extract_merged "Report.PDF" (ExtractResult.pages [some "1 Jane, 999"])
      (ModelOutcome.returns (JContent.valid
        (JVal.obj [("rows", JVal.arr [JVal.obj [("Name", JVal.str "Jane")]])])))
    = HandlerOutcome.response
        ⟨true,
         [[("Name", some "Jane"), ("MemberID", none), ("T1023AuthId", none),
           ("T1023Range", none), ("T1023BillDate", none), ("H0044AuthId", none),
           ("H0044Range", none), ("H0044BillDate", none), ("Paid", none)]],
         none⟩ := by decide

/-! ### Helper lemmas about the Row Filter -/

/-- Unfolding `filterLines` on a cons: the two keep branches collapse into one
disjunctive condition. -/
theorem filterLines_cons (ln : String) (rest : List String) :
    filterLines (ln :: rest) =
      if isStopLine ln then []
      else if headerKeep ln || dataKeep ln then ln :: filterLines rest
      else filterLines rest := by
  by_cases hs : isStopLine ln = true
  · simp [filterLines, hs]
  · by_cases hh : headerKeep ln = true
    · simp [filterLines, hs, hh]
    · by_cases hd : dataKeep ln = true
      · simp [filterLines, hs, hh, hd]
      · simp [filterLines, hs, hh, hd]

/-- Every line the filter keeps is a non-stop line satisfying one of the two
keep tests. -/
theorem keep_of_mem_filterLines :
    ∀ {lines : List String} {ln : String}, ln ∈ filterLines lines →
      isStopLine ln = false ∧ (headerKeep ln || dataKeep ln) = true := by
  intro lines
  induction lines with
  | nil => intro ln h; simp [filterLines] at h
  | cons x rest ih =>
    intro ln h
    rw [filterLines_cons] at h
    by_cases hs : isStopLine x = true
    · simp [hs] at h
    · by_cases hk : (headerKeep x || dataKeep x) = true
      · simp [hs, hk] at h
        rcases h with h | h
        · subst h
          exact ⟨by simpa using hs, hk⟩
        · exact ih h
      · simp [hs, hk] at h
        exact ih h

/-- If every line of the input is a kept line, the filter is the identity. -/
theorem filterLines_id_of_keep :
    ∀ {lines : List String},
      (∀ ln ∈ lines, isStopLine ln = false ∧ (headerKeep ln || dataKeep ln) = true) →
      filterLines lines = lines := by
  intro lines
  induction lines with
  | nil => intro _; rfl
  | cons x rest ih =>
    intro h
    have hx := h x (by simp)
    rw [filterLines_cons, hx.1, hx.2]
    simp only [if_false, if_true, Bool.false_eq_true]
    rw [ih fun ln hln => h ln (by simp [hln])]

/-- The pre-fallback kept lines all sit strictly before any stop-marker line:
the kept set is a sublist of the first `i` input lines whenever line `i`
triggers the stop condition. -/
theorem filterLines_sublist_take :
    ∀ (lines : List String) (i : Nat) (ln : String),
      lines[i]? = some ln → isStopLine ln = true →
      List.Sublist (filterLines lines) (lines.take i) := by
  intro lines
  induction lines with
  | nil => intro i ln h _; simp at h
  | cons x rest ih =>
    intro i ln h hstop
    cases i with
    | zero =>
      simp at h
      subst h
      rw [filterLines_cons, hstop]
      simp
    | succ j =>
      rw [List.take_succ_cons, filterLines_cons]
      by_cases hs : isStopLine x = true
      · simp [hs]
      · have hsub := ih j ln (by simpa using h) hstop
        by_cases hk : (headerKeep x || dataKeep x) = true
        · simp only [hs, hk, if_true, if_false, Bool.false_eq_true]
          exact List.Sublist.cons₂ x hsub
        · simp only [hs, hk, if_false, Bool.false_eq_true]
          exact List.Sublist.cons x hsub

/-! ### C5 — fallback property -/

/-- C5: if the Row Filter's kept set is empty after processing, the filter's
output is the full original input sequence, unchanged and in order. -/
theorem C5_fallback (lines : List String) (h : filterLines lines = []) :
    rowFilter lines = lines := by
  simp [rowFilter, h]

theorem C5_fallback_witness :
    filterLines ["hello world"] = [] ∧ rowFilter ["hello world"] = ["hello world"] :=
  ⟨by decide, C5_fallback ["hello world"] (by decide)⟩

/-! ### C6 — idempotence of the pre-fallback filter -/

/-- C6: applying the keep/stop logic (without the fallback) to its own output
yields that same output: the filter is idempotent modulo the fallback. -/
theorem C6_idempotent (lines : List String) :
    filterLines (filterLines lines) = filterLines lines :=
  filterLines_id_of_keep fun _ h => keep_of_mem_filterLines h

/-! ### C7 — characterization of the keep decision for non-stop lines -/

/-- The keep condition exactly as the spec words it: the line contains the
"name" header keyword together with one of the two member-identifier keyword
variants (case-insensitively), or begins with one or more digits followed by
whitespace, or contains a comma and does not begin with the month-name
marker. -/
def keepLineSpec (ln : String) : Bool :=
  (containsStr (upperStr ln) "NAME" &&
      (containsStr (upperStr ln) "MRN" || containsStr (upperStr ln) "MBR")) ||
    startsDigitsWs ln ||
    (containsStr ln "," && !(startsWithStr (upperStr ln) "AUGUST"))

/-- C7: a non-stop line is kept by the Row Filter exactly when the spec's
disjunctive keep condition holds of it; otherwise it is dropped. -/
theorem C7_keep_char (ln : String) (rest : List String)
    (h : isStopLine ln = false) :
    (keepLineSpec ln = true → filterLines (ln :: rest) = ln :: filterLines rest) ∧
    (keepLineSpec ln = false → filterLines (ln :: rest) = filterLines rest) := by
  have hspec : keepLineSpec ln = (headerKeep ln || dataKeep ln) := by
    simp [keepLineSpec, headerKeep, dataKeep, Bool.or_assoc]
  constructor <;> intro hk <;> rw [filterLines_cons, h] <;>
    simp only [Bool.false_eq_true, if_false] <;>
    rw [← hspec, hk] <;> simp

theorem C7_keep_char_witness :
    isStopLine "1 John Doe, 12345" = false ∧
    keepLineSpec "1 John Doe, 12345" = true ∧
    filterLines ["1 John Doe, 12345", "x"] = "1 John Doe, 12345" :: filterLines ["x"] :=
  ⟨by decide, by decide,
    (C7_keep_char "1 John Doe, 12345" ["x"] (by decide)).1 (by decide)⟩

/-! ### C2 — stop-marker property -/

/-- C2 as stated is false: a line containing a trailer marker can itself
appear in the Row Filter's output, because when nothing is kept the fallback
returns the full input — including the marker line and everything at or after
its index. -/
theorem C2_stop_marker_counterexample :
    isStopLine "SEPTEMBER" = true ∧ rowFilter ["SEPTEMBER"] = ["SEPTEMBER"] := by
  decide

/-- C2 amended: provided the pre-fallback kept set is nonempty (so the
fallback does not fire), a trailer-marker line at index `i` guarantees that
the output is drawn entirely from the lines strictly before index `i`. -/
theorem C2_stop_marker (lines : List String) (i : Nat) (ln : String)
    (h : lines[i]? = some ln) (hstop : isStopLine ln = true)
    (hne : filterLines lines ≠ []) :
    List.Sublist (rowFilter lines) (lines.take i) := by
  have hr : rowFilter lines = filterLines lines := by
    simp only [rowFilter]
    rw [if_neg]
    simp [hne]
  rw [hr]
  exact filterLines_sublist_take lines i ln h hstop

theorem C2_stop_marker_witness :
    (["1 a b", "SEPTEMBER", "2 c, d"][1]? = some "SEPTEMBER") ∧
    isStopLine "SEPTEMBER" = true ∧
    filterLines ["1 a b", "SEPTEMBER", "2 c, d"] ≠ [] ∧
    List.Sublist (rowFilter ["1 a b", "SEPTEMBER", "2 c, d"]) ["1 a b"] :=
  ⟨by decide, by decide, by decide,
    C2_stop_marker ["1 a b", "SEPTEMBER", "2 c, d"] 1 "SEPTEMBER"
      (by decide) (by decide) (by decide)⟩

/-! ### C1 — empty extraction short-circuit -/

/-- C1 as stated is false: when text extraction succeeds but yields no
non-empty lines, the endpoint returns `status := false` (with empty data and
no error key), not `status := true` (`main.py` lines 67-68). -/
theorem C1_empty_counterexample :
    normalizeLines [some " \t "] = [] ∧
    extract_merged "scan.pdf" (ExtractResult.pages [some " \t "])
        (ModelOutcome.returns (JContent.valid (JVal.obj [])))
      ≠ HandlerOutcome.response ⟨true, [], none⟩ := by
  decide

/-- C1 amended: when the filename check passes and extraction succeeds with no
non-empty lines on any page, the endpoint short-circuits before the filter,
prompt, and model steps (the result does not depend on the model oracle) and
returns `status := false` with an empty row list and no error message. -/
theorem C1_empty_short_circuit (filename : String) (texts : List (Option String))
    (mo : ModelOutcome)
    (hpdf : endsWithStr (lowerStr filename) ".pdf" = true)
    (hempty : normalizeLines texts = []) :
    extract_merged filename (ExtractResult.pages texts) mo =
      HandlerOutcome.response ⟨false, [], none⟩ := by
  simp [extract_merged, hpdf, hempty]

theorem C1_empty_short_circuit_witness :
    endsWithStr (lowerStr "Scan.PDF") ".pdf" = true ∧
    normalizeLines [none, some ""] = [] ∧
    extract_merged "Scan.PDF" (ExtractResult.pages [none, some ""])
        (ModelOutcome.failure "boom") =
      HandlerOutcome.response ⟨false, [], none⟩ :=
  ⟨by decide, by decide,
    C1_empty_short_circuit "Scan.PDF" [none, some ""] (ModelOutcome.failure "boom")
      (by decide) (by decide)⟩

/-! ### C8 — non-PDF filename rejection -/

/-- C8: a filename not ending in `.pdf` (case-insensitive) is rejected with
exactly the `Please upload a PDF` payload, and the result does not depend on
the extraction oracle or the model oracle — neither is invoked. -/
theorem C8_non_pdf (filename : String) (xr : ExtractResult) (mo : ModelOutcome)
    (h : endsWithStr (lowerStr filename) ".pdf" = false) :
    extract_merged filename xr mo =
      HandlerOutcome.response ⟨false, [], some "Please upload a PDF"⟩ := by
  simp [extract_merged, h]

theorem C8_non_pdf_witness :
    endsWithStr (lowerStr "notes.txt") ".pdf" = false ∧
    extract_merged "notes.txt" (ExtractResult.readError "unused")
        (ModelOutcome.failure "unused") =
      HandlerOutcome.response ⟨false, [], some "Please upload a PDF"⟩ :=
  ⟨by decide,
    C8_non_pdf "notes.txt" (ExtractResult.readError "unused")
      (ModelOutcome.failure "unused") (by decide)⟩

/-! ### C10 — determinism of the pre-model pipeline -/

/-- C10: the pre-model pipeline is deterministic — two runs given identical
sequences of extracted page texts produce identical normalized lines, identical
filtered lines, and identical system and user prompt strings. The pipeline is
a pure function of the page texts alone: no other input appears. -/
theorem C10_deterministic (texts₁ texts₂ : List (Option String))
    (h : texts₁ = texts₂) : prePipeline texts₁ = prePipeline texts₂ := by
  rw [h]

theorem C10_deterministic_witness :
    prePipeline [some "1 a, b\nx"] = prePipeline [some "1 a, b\nx"] :=
  C10_deterministic [some "1 a, b\nx"] [some "1 a, b\nx"] rfl

/-! ### C3 — schema-normalizer failure behaviour -/

/-- C3 as stated is false: when the model returns the valid JSON object
`{}` — which contains no locatable row array — `data.get("rows", [])` defaults
to the empty list and the endpoint reports success with empty data instead of
failing (`main.py` line 139). -/
theorem C3_normalizer_counterexample :
    extract_merged "a.pdf" (ExtractResult.pages [some "1 x, y"])
        (ModelOutcome.returns (JContent.valid (JVal.obj []))) =
      HandlerOutcome.response ⟨true, [], none⟩ := by
  decide

/-- C3 amended: the pipeline fails with an `AI extraction failed` payload when
the model call fails, when the returned text is not valid JSON, or when the
parsed value is not a JSON object (so `.get` raises); but when the parsed
value is an object with no `rows` key, the row list defaults to empty and the
endpoint reports success with empty data. It never fabricates rows. -/
theorem C3_normalizer (s u d : String) (v : JVal) (fs : List (String × JVal))
    (hv : ∀ gs, v ≠ JVal.obj gs) (hfs : fs.lookup "rows" = none) :
    modelStage s u (ModelOutcome.failure d) =
      HandlerOutcome.response ⟨false, [], some ("AI extraction failed: " ++ d)⟩ ∧
    modelStage s u (ModelOutcome.returns (JContent.invalid d)) =
      HandlerOutcome.response ⟨false, [], some ("AI extraction failed: " ++ d)⟩ ∧
    (∃ d2, modelStage s u (ModelOutcome.returns (JContent.valid v)) =
      HandlerOutcome.response ⟨false, [], some ("AI extraction failed: " ++ d2)⟩) ∧
    modelStage s u (ModelOutcome.returns (JContent.valid (JVal.obj fs))) =
      HandlerOutcome.response ⟨true, [], none⟩ := by
  refine ⟨rfl, rfl, ?_, ?_⟩
  · cases v with
    | obj gs => exact absurd rfl (hv gs)
    | null => exact ⟨_, rfl⟩
    | bool b => exact ⟨_, rfl⟩
    | num n => exact ⟨_, rfl⟩
    | str t => exact ⟨_, rfl⟩
    | arr l => exact ⟨_, rfl⟩
  · simp [modelStage, pyGetRows, hfs, pyIter, rowsOfJVals]

theorem C3_normalizer_witness :
    modelStage "s" "u" (ModelOutcome.failure "boom") =
      HandlerOutcome.response ⟨false, [], some ("AI extraction failed: " ++ "boom")⟩ ∧
    modelStage "s" "u" (ModelOutcome.returns (JContent.invalid "boom")) =
      HandlerOutcome.response ⟨false, [], some ("AI extraction failed: " ++ "boom")⟩ ∧
    (∃ d2, modelStage "s" "u" (ModelOutcome.returns (JContent.valid (JVal.num 0))) =
      HandlerOutcome.response ⟨false, [], some ("AI extraction failed: " ++ d2)⟩) ∧
    modelStage "s" "u" (ModelOutcome.returns (JContent.valid (JVal.obj []))) =
      HandlerOutcome.response ⟨true, [], none⟩ :=
  C3_normalizer "s" "u" "boom" (JVal.num 0) []
    (fun _ h => JVal.noConfusion h) rfl

/-! ### C9 — error payload on model-call / normalization failure -/

/-- C9 (the claim is right, the code has a bug): the `UnifiedRow(**r)`
comprehension (`main.py` line 143) sits outside the `try`/`except`, so when a
parsed `rows` element is not a mapping — e.g. the model returns
`{"rows": [5]}` — the handler raises an uncaught `TypeError` instead of
returning the `AI extraction failed` payload promised by its own docstring. -/
theorem C9_uncaught_row_error :
    extract_merged "a.pdf" (ExtractResult.pages [some "1 x, y"])
        (ModelOutcome.returns (JContent.valid
          (JVal.obj [("rows", JVal.arr [JVal.num 5])]))) =
      HandlerOutcome.unhandled "TypeError" := by
  decide

/-! ### C4 — total-field property of emitted rows -/

/-- Every emitted row object carries exactly the nine schema field names, in
declaration order. -/
theorem dictOf_keys (u : UnifiedRow) :
    (dictOf u).map Prod.fst = unifiedFieldNames := rfl

/-- A successful response out of the model stage has its data built by mapping
`dictOf` over some list of normalized rows. -/
theorem modelStage_success (s u : String) (mo : ModelOutcome) (r : Response)
    (h : modelStage s u mo = HandlerOutcome.response r) (hs : r.status = true) :
    ∃ urows : List UnifiedRow, r.data = urows.map dictOf := by
  cases mo with
  | failure d =>
    simp only [modelStage] at h
    injection h with h
    rw [← h] at hs
    simp at hs
  | returns c =>
    cases c with
    | invalid d =>
      simp only [modelStage] at h
      injection h with h
      rw [← h] at hs
      simp at hs
    | valid v =>
      simp only [modelStage] at h
      split at h
      · injection h with h
        rw [← h] at hs
        simp at hs
      · split at h
        · exact HandlerOutcome.noConfusion h
        · split at h
          · exact HandlerOutcome.noConfusion h
          · injection h with h
            rw [← h]
            exact ⟨_, rfl⟩

/-- A successful `/extract` response has its data built by mapping `dictOf`
over some list of normalized rows. -/
theorem extract_success_data (filename : String) (xr : ExtractResult)
    (mo : ModelOutcome) (r : Response)
    (h : extract_merged filename xr mo = HandlerOutcome.response r)
    (hs : r.status = true) :
    ∃ urows : List UnifiedRow, r.data = urows.map dictOf := by
  unfold extract_merged at h
  by_cases hc : endsWithStr (lowerStr filename) ".pdf" = true
  · rw [hc] at h
    simp only [Bool.not_true, Bool.false_eq_true, if_false] at h
    cases xr with
    | readError d =>
      simp at h
      rw [← h] at hs
      simp at hs
    | pages texts =>
      by_cases he : (normalizeLines texts).isEmpty = true
      · simp only [he, if_true] at h
        simp at h
        rw [← h] at hs
        simp at hs
      · simp only [he, Bool.false_eq_true, if_false] at h
        exact modelStage_success _ _ _ _ h hs
  · simp only [Bool.not_eq_true] at hc
    rw [hc] at h
    simp at h
    rw [← h] at hs
    simp at hs

/-- C4: (1) every row object emitted in a successful `/extract` response has
exactly the nine schema fields, in order; and for every record the model
returned from which a row was built, (2) each of the nine fields missing from
the record appears in the emitted object as an explicit null, and (3) any
field name outside the nine never appears in the emitted object. -/
theorem C4_total_fields :
    (∀ (filename : String) (xr : ExtractResult) (mo : ModelOutcome) (r : Response),
      extract_merged filename xr mo = HandlerOutcome.response r → r.status = true →
      ∀ row ∈ r.data, row.map Prod.fst = unifiedFieldNames) ∧
    (∀ (fs : List (String × JVal)) (u : UnifiedRow),
      rowOfJVal (JVal.obj fs) = Except.ok u →
      (∀ name ∈ unifiedFieldNames, fs.lookup name = none →
        (dictOf u).lookup name = some none) ∧
      (∀ name, name ∉ unifiedFieldNames → (dictOf u).lookup name = none)) := by
  constructor
  · intro filename xr mo r h hs row hrow
    obtain ⟨urows, hd⟩ := extract_success_data filename xr mo r h hs
    rw [hd] at hrow
    obtain ⟨u, _, hu⟩ := List.mem_map.mp hrow
    rw [← hu]
    exact dictOf_keys u
  · intro fs u h
    simp only [rowOfJVal] at h
    by_cases hok : unifiedFieldNames.all (fieldOk fs) = true
    · rw [if_pos hok] at h
      injection h with h
      constructor
      · intro name hmem hnone
        have hval : fieldVal fs name = none := by simp [fieldVal, hnone]
        fin_cases hmem <;> rw [← h] <;> simp [dictOf, List.lookup] <;>
          rw [← hval]
      · intro name hmem
        simp only [unifiedFieldNames, List.mem_cons, List.not_mem_nil, or_false,
          not_or] at hmem
        obtain ⟨h1, h2, h3, h4, h5, h6, h7, h8, h9⟩ := hmem
        rw [← h]
        have e1 : (name == "Name") = false := beq_eq_false_iff_ne.mpr h1
        have e2 : (name == "MemberID") = false := beq_eq_false_iff_ne.mpr h2
        have e3 : (name == "T1023AuthId") = false := beq_eq_false_iff_ne.mpr h3
        have e4 : (name == "T1023Range") = false := beq_eq_false_iff_ne.mpr h4
        have e5 : (name == "T1023BillDate") = false := beq_eq_false_iff_ne.mpr h5
        have e6 : (name == "H0044AuthId") = false := beq_eq_false_iff_ne.mpr h6
        have e7 : (name == "H0044Range") = false := beq_eq_false_iff_ne.mpr h7
        have e8 : (name == "H0044BillDate") = false := beq_eq_false_iff_ne.mpr h8
        have e9 : (name == "Paid") = false := beq_eq_false_iff_ne.mpr h9
        simp [dictOf, List.lookup, e1, e2, e3, e4, e5, e6, e7, e8, e9]
    · rw [if_neg hok] at h
      exact Except.noConfusion h

theorem C4_total_fields_witness :
    (∀ row ∈ ([[("Name", some "Jane"), ("MemberID", none), ("T1023AuthId", none),
        ("T1023Range", none), ("T1023BillDate", none), ("H0044AuthId", none),
        ("H0044Range", none), ("H0044BillDate", none), ("Paid", none)]] :
        List (List (String × Option String))),
      row.map Prod.fst = unifiedFieldNames) ∧
    ((dictOf { Name := some "Jo" }).lookup "MemberID" = some none) ∧
    ((dictOf { Name := some "Jo" }).lookup "Junk" = none) :=
  ⟨C4_total_fields.1 "Report.PDF" (ExtractResult.pages [some "1 Jane, 999"])
      (ModelOutcome.returns (JContent.valid
        (JVal.obj [("rows", JVal.arr [JVal.obj [("Name", JVal.str "Jane")]])])))
      ⟨true,
       [[("Name", some "Jane"), ("MemberID", none), ("T1023AuthId", none),
         ("T1023Range", none), ("T1023BillDate", none), ("H0044AuthId", none),
         ("H0044Range", none), ("H0044BillDate", none), ("Paid", none)]],
       none⟩ (by decide) rfl,
    (C4_total_fields.2 [("Name", JVal.str "Jo"), ("Junk", JVal.num 1)]
        { Name := some "Jo" } rfl).1 "MemberID" (by decide) rfl,
    (C4_total_fields.2 [("Name", JVal.str "Jo"), ("Junk", JVal.num 1)]
        { Name := some "Jo" } rfl).2 "Junk" (by decide)⟩
